import Mathlib

/-!
Verification of the recording capture and upload pipeline of the
usability-testing app: the `RecordingQueue` upload barrier
(`src/utils/recording-queue.tsx`), the `AutoRecorder` stop/finalize sequence
(`src/components/AutoRecorder.tsx`), the session submitter
(`submitFinalResponses` in `App.tsx`), and the backend endpoints
(`src/supabase/functions/server/index.tsx`).

Times are naturals on the single-threaded event-loop clock (milliseconds).
-/

namespace UserTesting

/-- An upload job tracked by the `RecordingQueue`: the promise registered by
`addUpload`, abstracted by the time at which it settles and whether it settled
as a successful upload. -/
structure UploadJob where
  id : Nat
  settleTime : Nat
  succeeded : Bool
deriving DecidableEq

/-- Resolution time of `Promise.allSettled ps`: it fulfills once every promise
in `ps` has settled, whether fulfilled or rejected; the outcome of each
promise does not affect when (or whether) it resolves. -/
def allSettledTime (ps : List UploadJob) : Nat :=
  (ps.map (fun j => j.settleTime)).foldr max 0

/-- `RecordingQueue.waitForAll`: if the pending set is empty it returns
immediately (at its call time); otherwise it awaits `Promise.allSettled` of
the snapshot of pending uploads taken at call time. -/
def waitForAll (callTime : Nat) (pending : List UploadJob) : Nat :=
  if pending.isEmpty then callTime
  else max callTime (allSettledTime pending)

/-- Mark the job with id `i` as failed (its promise rejects instead of
fulfilling); its settle time and every other job are untouched, since the
uploads are independent promises. -/
def markFailed (i : Nat) (ps : List UploadJob) : List UploadJob :=
  ps.map (fun j => if j.id = i then { j with succeeded := false } else j)

/-- `submitFinalResponses` (in `App.tsx`): when a submission is already in
progress it returns without posting; otherwise it reads
`recordingQueue.getPendingCount()`, awaits `recordingQueue.waitForAll()` when
the count is positive, and only afterwards sends the POST to the
`submit-response` endpoint.  The result is the earliest time at which that
POST can be sent (`none` when no POST happens); the identity-recovery steps
between the barrier and the POST only make the actual send later. -/
def submitFinalResponses (isSubmitting : Bool) (callTime : Nat)
    (pending : List UploadJob) : Option Nat :=
  if isSubmitting then none
  else if 0 < pending.length then some (waitForAll callTime pending)
  else some callTime

/-! ## Chunked Recorder stop sequence (`AutoRecorder.tsx`)

`stopRecording` clears the polling and timer intervals, then (when the
`MediaRecorder` is still active) arms a 2000 ms backup timeout before calling
`MediaRecorder.stop()`; it also wraps the previously installed `onstop`
handler so that the wrapper first clears that timeout and then runs the
original handler.  The original `onstop` handler (installed in
`startRecording`) skips its body when its `onstopFired` flag is already set;
otherwise it sets the flag, runs `saveRecordings()` and registers the promise
on the queue with `recordingQueue.addUpload`.  The backup timeout callback
runs `saveRecordings()` and `addUpload` directly, without touching
`onstopFired`. -/

/-- Delay of the backup timeout armed by `stopRecording` (ms). -/
def onstopTimeoutMs : Nat := 2000

/-- The two events that can end the stop sequence: the armed backup timeout
firing, and the capture pipeline delivering its `onstop` confirmation. -/
inductive StopEvent where
  | watchdogFire
  | stopConfirm
deriving DecidableEq

/-- State of one stop sequence: whether the backup timeout is still armed,
the `onstopFired` guard flag of the original handler, and how many
finalize-and-register runs (`saveRecordings` + `addUpload`) have happened. -/
structure StopState where
  watchdogArmed : Bool
  onstopFired : Bool
  uploadsRegistered : Nat
deriving DecidableEq

/-- State right after `stopRecording` armed the timeout and called `stop()`. -/
def initialStopState : StopState :=
  { watchdogArmed := true, onstopFired := false, uploadsRegistered := 0 }

/-- One event of the stop sequence, translated from `AutoRecorder.tsx`:
a firing timeout finalizes and registers an upload (a timeout only fires
while armed); the wrapped `onstop` clears the timeout and then runs the
original handler, which finalizes unless `onstopFired` is already set. -/
def stopStep (s : StopState) : StopEvent → StopState
  | StopEvent.watchdogFire =>
    if s.watchdogArmed then
      { s with watchdogArmed := false, uploadsRegistered := s.uploadsRegistered + 1 }
    else s
  | StopEvent.stopConfirm =>
    let s1 : StopState := { s with watchdogArmed := false }
    if s1.onstopFired then s1
    else { s1 with onstopFired := true, uploadsRegistered := s1.uploadsRegistered + 1 }

/-- Run a stop sequence over the events delivered by the event loop, in
delivery order. -/
def runStop (events : List StopEvent) : StopState :=
  events.foldl stopStep initialStopState

/-- Timed reading of the stop sequence: `confirm` is the time at which the
capture pipeline delivers its `onstop` confirmation (`none` when it never
does).  The result lists the times at which a finalize-and-register runs:
a confirmation before the 2000 ms timeout clears the timeout and finalizes
once; an absent confirmation leaves only the timeout's forced finalize; a
confirmation at or after the timeout runs after the timeout's forced
finalize and finalizes a second time, since the timeout callback does not
set `onstopFired`. -/
def finalizeTimes (confirm : Option Nat) : List Nat :=
  match confirm with
  | none => [onstopTimeoutMs]
  | some t => if t < onstopTimeoutMs then [t] else [onstopTimeoutMs, t]

/-! ## `saveRecordings` (`AutoRecorder.tsx`) -/

/-- Outcome of the `fetch` to the `upload-recording` endpoint, as
distinguished by `saveRecordings`: a received HTTP response (with its status
and whether its body parses as JSON), an abort (the 2-minute upload timeout),
a network-level `TypeError`, or any other rejection. -/
inductive FetchOutcome where
  | ok (status : Nat) (jsonOk : Bool)
  | abortError
  | networkError
  | otherError (msg : String)
deriving DecidableEq

/-- What one `saveRecordings` run leaves behind in the component: whether the
success path was reached (`setSaveComplete(true)` and
`onRecordingComplete()`), and the local error state it set, if any. -/
structure SaveOutcome where
  uploaded : Bool
  errorMsg : Option String
deriving DecidableEq

/-- The component error state set when a zero-byte blob is detected. -/
def emptyCaptureError : String := "Screen recording did not capture any data."

/-- The component error state set by the outer catch of `saveRecordings`. -/
def saveFailedError : String := "Failed to save recording"

/-- Body of `saveRecordings` up to its outer catch, translated from the
source: the screen blob is assembled from the accumulated chunks (its size is
the sum of the chunk sizes); a zero-byte blob sets the empty-capture error
and returns early, performing no upload; otherwise the upload is attempted
and a non-ok HTTP status, a JSON parse failure of the response body, an
aborted fetch, a network error and any other fetch rejection all throw
(modelled as `Except.error`). -/
def saveRecordingsBody (chunkSizes : List Nat) (fetch : FetchOutcome) :
    Except String SaveOutcome :=
  let screenBlobSize := chunkSizes.sum
  if screenBlobSize = 0 then
    Except.ok { uploaded := false, errorMsg := some emptyCaptureError }
  else
    match fetch with
    | FetchOutcome.ok status jsonOk =>
      if status < 200 ∨ 300 ≤ status then Except.error "Upload failed"
      else if jsonOk then Except.ok { uploaded := true, errorMsg := none }
      else Except.error "JSON parse error"
    | FetchOutcome.abortError =>
      Except.error "Upload timeout - recording was too large or connection too slow"
    | FetchOutcome.networkError =>
      Except.error "Network error during upload - server may be unavailable"
    | FetchOutcome.otherError msg => Except.error msg

/-- The outer `try`/`catch` of `saveRecordings`: every thrown error is caught,
logged, converted into the local error state, and the async function returns
normally. -/
def catchAll (x : Except String SaveOutcome) : Except String SaveOutcome :=
  match x with
  | Except.ok r => Except.ok r
  | Except.error _ => Except.ok { uploaded := false, errorMsg := some saveFailedError }

/-- Settlement of the promise returned by `saveRecordings`: `Except.ok`
means the promise fulfilled, `Except.error` that it rejected. -/
def saveRecordingsSettled (chunkSizes : List Nat) (fetch : FetchOutcome) :
    Except String SaveOutcome :=
  catchAll (saveRecordingsBody chunkSizes fetch)

/-- The value a fulfilled `saveRecordings` promise leaves in the component. -/
def saveRecordings (chunkSizes : List Nat) (fetch : FetchOutcome) : SaveOutcome :=
  match saveRecordingsSettled chunkSizes fetch with
  | Except.ok r => r
  | Except.error _ => { uploaded := false, errorMsg := none }

/-- Effect of one run of the original `onstop` handler (`AutoRecorder.tsx`):
number of `recordingQueue.addUpload` calls it makes and the outcome of the
`saveRecordings` run it starts (`none` when the `onstopFired` guard skips the
body).  Note the handler registers the `saveRecordings()` promise on the
queue unconditionally, before `saveRecordings` checks the blob size. -/
structure OnstopResult where
  jobsEnqueued : Nat
  save : Option SaveOutcome
deriving DecidableEq

/-- The original `onstop` handler, translated from the source. -/
def onstopHandler (onstopFired : Bool) (chunkSizes : List Nat)
    (fetch : FetchOutcome) : OnstopResult :=
  if onstopFired then { jobsEnqueued := 0, save := none }
  else { jobsEnqueued := 1, save := some (saveRecordings chunkSizes fetch) }

/-! ## Backend server (`src/supabase/functions/server/index.tsx`)

The server keeps participant records and recording metadata in a key/value
store (`kv_store.tsx`, imported by the server but not present in the
sources), and recording files in a storage bucket. -/

/-- Modelled from the spec: the key/value record store behind the missing
`kv_store.tsx` ("an external object store + a key/value record store", one
record per key); `set` overwrites the value held at a key or inserts a new
entry, `get` returns the value at a key, `del`/`mdel` remove keys, and
`getByPrefix` returns the values at keys starting with a prefix.  The same
shape models the storage bucket (paths to stored byte sizes), whose `upload`
with `upsert: true` overwrites and whose `remove` deletes. -/
structure KVStore (α : Type) where
  entries : List (String × α)
deriving DecidableEq

/-- Number of entries a store holds at a key. -/
def kvCount {α : Type} (st : KVStore α) (k : String) : Nat :=
  (st.entries.filter (fun e => e.1 = k)).length

/-- `kv.get`: the value at a key. -/
def kvGet {α : Type} (st : KVStore α) (k : String) : Option α :=
  (st.entries.find? (fun e => e.1 = k)).map (fun e => e.2)

/-- `kv.set` / storage `upload` with `upsert: true`: overwrite or insert. -/
def kvSet {α : Type} (st : KVStore α) (k : String) (v : α) : KVStore α :=
  if st.entries.any (fun e => e.1 = k) then
    ⟨st.entries.map (fun e => if e.1 = k then (k, v) else e)⟩
  else ⟨st.entries ++ [(k, v)]⟩

/-- `kv.del` / storage `remove`: drop a key. -/
def kvDel {α : Type} (st : KVStore α) (k : String) : KVStore α :=
  ⟨st.entries.filter (fun e => e.1 ≠ k)⟩

/-- `kv.mdel`: drop a list of keys. -/
def kvMdel {α : Type} (st : KVStore α) (ks : List String) : KVStore α :=
  ⟨st.entries.filter (fun e => ¬ e.1 ∈ ks)⟩

/-- `kv.getByPrefix`: the values at keys starting with the given prefix
(prefix of the underlying character sequence, the semantics of
`String.startsWith`). -/
def kvByKeyStart {α : Type} (st : KVStore α) (p : String) : List α :=
  (st.entries.filter (fun e => decide (p.data <+: e.1.data))).map (fun e => e.2)

/-- A participant record, with the fields the verified endpoints read and
write (`startedAt`, `userAgent`, the answer payload and the timestamps are
elided they are stored but never branched on). -/
structure Participant where
  participantId : String
  ipAddress : String
  submitted : Bool
  isFallback : Bool
deriving DecidableEq

/-- A PersistedRecording: the metadata record the `upload-recording` endpoint
writes under `recording:(participantId):task(taskNumber)` (the transcript and
timestamp fields are elided, they are stored but never branched on). -/
structure RecMeta where
  participantId : String
  taskNumber : Nat
  audioPath : Option String
  screenPath : Option String
  duration : Nat
deriving DecidableEq

/-- The server's durable state: participant records, recording metadata
records, and the storage bucket (path to stored byte size). -/
structure ServerState where
  participants : KVStore Participant
  recordings : KVStore RecMeta
  storage : KVStore Nat
deriving DecidableEq

/-- Storage path of a task's screen recording, as computed by the endpoint. -/
def screenPathOf (pid tn : String) : String :=
  pid ++ "/task" ++ tn ++ "_screen.webm"

/-- Storage path of a task's audio recording, as computed by the endpoint. -/
def audioPathOf (pid tn : String) : String :=
  pid ++ "/task" ++ tn ++ "_audio.webm"

/-- Key of a task's metadata record, as computed by the endpoint. -/
def recordingKey (pid tn : String) : String :=
  "recording:" ++ pid ++ ":task" ++ tn

/-- The 50 MB upload size limit of the endpoint, in bytes. -/
def maxUploadBytes : Nat := 52428800

/-- Responses of the `upload-recording` endpoint that matter here: 200 with
the stored paths, 400 on missing fields, 413 on an oversized blob. -/
inductive UploadResponse where
  | success (audioPath screenPath : Option String)
  | badRequest
  | tooLarge
deriving DecidableEq

/-- The `upload-recording` endpoint, translated from the source.  `pid`/`tn`
are the form fields, `audioSize`/`screenSize` the blob sizes (0 for an absent
blob), and `audioUploadFails`/`screenUploadFails` whether the storage
service rejects the corresponding write.  Each path is computed before the
storage write is attempted; a storage error is only logged, so the metadata
record written at the end still carries the computed path, and the endpoint
still answers success.  (`parseInt` of the form fields is modelled with
`String.toNat?`; the transcription step only fills the elided transcript
field.) -/
def uploadRecording (st : ServerState) (pid tn : String)
    (audioSize screenSize duration : Nat)
    (audioUploadFails screenUploadFails : Bool) : ServerState × UploadResponse :=
  if pid = "" ∨ tn = "" then (st, UploadResponse.badRequest)
  else if 0 < audioSize ∧ maxUploadBytes < audioSize then (st, UploadResponse.tooLarge)
  else
    let audioPath := if 0 < audioSize then some (audioPathOf pid tn) else none
    let storage1 :=
      if 0 < audioSize ∧ ¬ audioUploadFails then
        kvSet st.storage (audioPathOf pid tn) audioSize
      else st.storage
    if 0 < screenSize ∧ maxUploadBytes < screenSize then (st, UploadResponse.tooLarge)
    else
      let screenPath := if 0 < screenSize then some (screenPathOf pid tn) else none
      let storage2 :=
        if 0 < screenSize ∧ ¬ screenUploadFails then
          kvSet storage1 (screenPathOf pid tn) screenSize
        else storage1
      let meta : RecMeta :=
        { participantId := pid, taskNumber := tn.toNat?.getD 0,
          audioPath := audioPath, screenPath := screenPath, duration := duration }
      ({ st with storage := storage2,
                 recordings := kvSet st.recordings (recordingKey pid tn) meta },
        UploadResponse.success audioPath screenPath)

/-- Responses of the `submit-response` endpoint: 200 success, or 400 when the
participant id is missing. -/
inductive SubmitResponse where
  | success
  | badRequest
deriving DecidableEq

/-- The `submit-response` endpoint, translated from the source: a missing
participant id is a 400; an unknown participant gets a fallback record
created; the record is then overwritten with `submitted := true` and the
endpoint answers success.  No branch inspects the stored `submitted` flag:
the endpoint never rejects a participant for having already submitted. -/
def submitResponse (st : ServerState) (pid clientIP : String) :
    ServerState × SubmitResponse :=
  if pid = "" then (st, SubmitResponse.badRequest)
  else
    let key := "participant:" ++ pid
    let found := kvGet st.participants key
    let pd : Participant :=
      match found with
      | some p => p
      | none =>
        { participantId := pid, ipAddress := clientIP,
          submitted := false, isFallback := true }
    let st1 :=
      match found with
      | some _ => st
      | none => { st with participants := kvSet st.participants key pd }
    let updated := kvSet st1.participants key ({ pd with submitted := true })
    ({ st1 with participants := updated }, SubmitResponse.success)

/-- Responses of the `check-participant` endpoint: blocked when the client
IP already has a submitted participant, otherwise allowed with a fresh id. -/
inductive CheckResponse where
  | blocked
  | allowed (participantId : String)
deriving DecidableEq

/-- The `check-participant` endpoint, translated from the source: it scans
every stored participant and blocks when one has the caller's IP address and
`submitted === true`; otherwise it stores an initial record under a freshly
generated id (the id generation is randomized, so the fresh id is a
parameter here) and allows the session. -/
def checkParticipant (st : ServerState) (clientIP newPid : String) :
    ServerState × CheckResponse :=
  let existing := kvByKeyStart st.participants "participant:"
  if existing.any (fun p => p.ipAddress = clientIP ∧ p.submitted) then
    (st, CheckResponse.blocked)
  else
    let fresh : Participant :=
      { participantId := newPid, ipAddress := clientIP,
        submitted := false, isFallback := false }
    ({ st with participants := kvSet st.participants ("participant:" ++ newPid) fresh },
      CheckResponse.allowed newPid)

/-- The metadata keys the participant-exit endpoint deletes: the source
builds `recording:(pid):task(i)` for `i = 1..6` only. -/
def deleteRecordingKeys (pid : String) : List String :=
  (List.range 6).map (fun i => "recording:" ++ pid ++ ":task" ++ toString (i + 1))

/-- The task numbers of the task flow (`TaskFlow.tsx` declares Task1 through
Task10). -/
def taskFlowTaskNumbers : List Nat := [1, 2, 3, 4, 5, 6, 7, 8, 9, 10]

/-- The DELETE `participant/:id` endpoint, translated from the source: when
the participant record exists it is deleted; then every recording whose key
starts with `recording:(pid):` is fetched, the metadata keys for tasks 1..6
are deleted with `mdel`, and the storage files of every fetched recording
are removed.  (The transcript and analysis cleanup only touches stores not
modelled here; a missing participant returns success without deleting
anything.) -/
def deleteParticipant (st : ServerState) (pid : String) : ServerState :=
  match kvGet st.participants ("participant:" ++ pid) with
  | none => st
  | some _ =>
    let st1 := { st with participants := kvDel st.participants ("participant:" ++ pid) }
    let recs := kvByKeyStart st1.recordings ("recording:" ++ pid ++ ":")
    if recs.isEmpty then st1
    else
      let st2 := { st1 with recordings := kvMdel st1.recordings (deleteRecordingKeys pid) }
      let sto := recs.foldl (fun sto r =>
        let sto1 := match r.audioPath with
          | some p => kvDel sto p
          | none => sto
        match r.screenPath with
        | some p => kvDel sto1 p
        | none => sto1) st2.storage
      { st2 with storage := sto }

/-! ## Helper lemmas -/

theorem settleTime_le_allSettledTime {j : UploadJob} {ps : List UploadJob}
    (h : j ∈ ps) : j.settleTime ≤ allSettledTime ps := by
  induction ps with
  | nil => cases h
  | cons p rest ih =>
    rcases List.mem_cons.mp h with h | h
    · simp [allSettledTime, h]
    · exact le_trans (ih h) (by simp [allSettledTime])

theorem allSettledTime_le {ps : List UploadJob} {T : Nat}
    (h : ∀ j ∈ ps, j.settleTime ≤ T) : allSettledTime ps ≤ T := by
  induction ps with
  | nil => simp [allSettledTime]
  | cons p rest ih =>
    have hp := h p (by simp)
    have hr : allSettledTime rest ≤ T := ih (fun j hj => h j (by simp [hj]))
    simp only [allSettledTime, List.map_cons, List.foldr_cons]
    exact max_le hp hr

theorem markFailed_settleTimes (i : Nat) (ps : List UploadJob) :
    (markFailed i ps).map (fun j => j.settleTime) =
      ps.map (fun j => j.settleTime) := by
  induction ps with
  | nil => rfl
  | cons p rest ih =>
    simp only [markFailed, List.map_cons] at *
    rw [ih]
    by_cases h : p.id = i <;> simp [h]

theorem allSettledTime_markFailed (i : Nat) (ps : List UploadJob) :
    allSettledTime (markFailed i ps) = allSettledTime ps := by
  unfold allSettledTime
  rw [markFailed_settleTimes]

theorem waitForAll_markFailed (callTime i : Nat) (ps : List UploadJob) :
    waitForAll callTime (markFailed i ps) = waitForAll callTime ps := by
  unfold waitForAll
  rw [allSettledTime_markFailed]
  have : (markFailed i ps).isEmpty = ps.isEmpty := by
    cases ps <;> simp [markFailed]
  rw [this]

theorem filter_replace_length {α : Type} (k : String) (v : α)
    (es : List (String × α)) :
    ((es.map (fun e => if e.1 = k then (k, v) else e)).filter
        (fun e => e.1 = k)).length
      = (es.filter (fun e => e.1 = k)).length := by
  induction es with
  | nil => rfl
  | cons e rest ih =>
    by_cases he : e.1 = k <;> simp [he, ih]

theorem kvGet_kvSet_self {α : Type} (st : KVStore α) (k : String) (v : α) :
    kvGet (kvSet st k v) k = some v := by
  obtain ⟨es⟩ := st
  induction es with
  | nil => simp [kvGet, kvSet]
  | cons e rest ih =>
    by_cases he : e.1 = k
    · simp [kvGet, kvSet, he]
    · by_cases hr : rest.any (fun x => x.1 = k)
      · simp [kvGet, kvSet, he, hr] at ih ⊢
        exact ih
      · simp [kvGet, kvSet, he, hr] at ih ⊢
        exact ih

theorem kvCount_kvSet_self {α : Type} (st : KVStore α) (k : String) (v : α) :
    kvCount (kvSet st k v) k = max (kvCount st k) 1 := by
  obtain ⟨es⟩ := st
  unfold kvCount kvSet
  by_cases h : es.any (fun e => e.1 = k) = true
  · rw [if_pos h]
    dsimp only
    rw [filter_replace_length]
    rcases List.any_eq_true.mp h with ⟨e, he, hk⟩
    have hmem : e ∈ es.filter (fun e => e.1 = k) :=
      List.mem_filter.mpr ⟨he, hk⟩
    have hpos : 0 < (es.filter (fun e : String × α => e.1 = k)).length :=
      List.length_pos_of_mem hmem
    omega
  · rw [if_neg h]
    dsimp only
    have h0 : (es.filter (fun e : String × α => e.1 = k)).length = 0 := by
      rw [List.length_eq_zero, List.filter_eq_nil_iff]
      intro e he
      by_contra hk
      exact h (List.any_eq_true.mpr ⟨e, he, by simpa using hk⟩)
    rw [List.filter_append]
    simp [h0]

theorem kvGet_mem_kvByKeyStart {α : Type} (st : KVStore α) (p r : String)
    (v : α) (h : kvGet st (p ++ r) = some v) : v ∈ kvByKeyStart st p := by
  unfold kvGet at h
  obtain ⟨e, hfind⟩ : ∃ e, st.entries.find? (fun e => e.1 = p ++ r) = some e := by
    cases hf : st.entries.find? (fun e => e.1 = p ++ r) with
    | none => rw [hf] at h; cases h
    | some e => exact ⟨e, rfl⟩
  have hmem := List.mem_of_find?_eq_some hfind
  have hkey : e.1 = p ++ r := by simpa using List.find?_some hfind
  have hv : e.2 = v := by rw [hfind] at h; simpa using h
  unfold kvByKeyStart
  refine List.mem_map.mpr ⟨e, List.mem_filter.mpr ⟨hmem, ?_⟩, hv⟩
  simp [hkey]

theorem stopStep_fixed (n : Nat) (e : StopEvent) :
    stopStep ⟨false, true, n⟩ e = ⟨false, true, n⟩ := by
  cases e <;> rfl

theorem foldl_stopStep_fixed (n : Nat) (events : List StopEvent) :
    events.foldl stopStep ⟨false, true, n⟩ = ⟨false, true, n⟩ := by
  induction events with
  | nil => rfl
  | cons e es ih => rw [List.foldl_cons, stopStep_fixed, ih]

theorem uploadRecording_screen_eq (st : ServerState) (pid tn : String)
    (s d : Nat) (fails : Bool)
    (hpid : ¬ pid = "") (htn : ¬ tn = "") (hs : 0 < s)
    (hm : ¬ maxUploadBytes < s) :
    uploadRecording st pid tn 0 s d false fails =
      ({ st with
          storage := if fails then st.storage
                     else kvSet st.storage (screenPathOf pid tn) s,
          recordings := kvSet st.recordings (recordingKey pid tn)
            { participantId := pid, taskNumber := tn.toNat?.getD 0,
              audioPath := none, screenPath := some (screenPathOf pid tn),
              duration := d } },
        UploadResponse.success none (some (screenPathOf pid tn))) := by
  unfold uploadRecording
  rw [if_neg (by simp [hpid, htn])]
  rw [if_neg (by simp)]
  rw [if_neg (by simp [hm])]
  cases fails <;> simp [hs]

/-! ## Claim theorems -/

/-- C1: the final "submitted" POST is sent only after every UploadJob created
during the session has reached a terminal state: `submitFinalResponses`
awaits the queue's `waitForAll` barrier before posting, so every session job
that is either still in the queue's pending snapshot at the barrier call or
already settled (and hence removed from the set) by then has settled by the
time the POST is sent. -/
theorem submitted_only_after_session_jobs_settle
    (sessionJobs pending : List UploadJob) (callTime postTime : Nat)
    (hreg : ∀ j ∈ sessionJobs, j ∈ pending ∨ j.settleTime ≤ callTime)
    (hpost : submitFinalResponses false callTime pending = some postTime) :
    ∀ j ∈ sessionJobs, j.settleTime ≤ postTime := by
  intro j hj
  unfold submitFinalResponses at hpost
  rw [if_neg (by simp)] at hpost
  by_cases hp : 0 < pending.length
  · rw [if_pos hp] at hpost
    have hne : ¬ pending.isEmpty = true := by
      cases pending with
      | nil => simp at hp
      | cons a l => simp
    have hw : waitForAll callTime pending = max callTime (allSettledTime pending) := by
      unfold waitForAll
      rw [if_neg hne]
    rw [hw] at hpost
    have hpost2 : max callTime (allSettledTime pending) = postTime := by
      simpa using hpost
    rcases hreg j hj with hmem | hle
    · have hs := settleTime_le_allSettledTime hmem
      omega
    · omega
  · rw [if_neg hp] at hpost
    have hpost2 : callTime = postTime := by simpa using hpost
    rcases hreg j hj with hmem | hle
    · cases pending with
      | nil => cases hmem
      | cons a l => simp at hp
    · omega

/-- Witness for C1: a concrete session with a slow successful job and a
faster failed one, both pending when the barrier is called at time 0. -/
theorem submitted_only_after_session_jobs_settle_witness :
    (∀ j ∈ [UploadJob.mk 1 5 true, UploadJob.mk 2 3 false],
        j ∈ [UploadJob.mk 1 5 true, UploadJob.mk 2 3 false] ∨ j.settleTime ≤ 0)
    ∧ submitFinalResponses false 0
        [UploadJob.mk 1 5 true, UploadJob.mk 2 3 false] = some 5
    ∧ ∀ j ∈ [UploadJob.mk 1 5 true, UploadJob.mk 2 3 false], j.settleTime ≤ 5 :=
  ⟨by decide, by decide,
   submitted_only_after_session_jobs_settle
     [UploadJob.mk 1 5 true, UploadJob.mk 2 3 false]
     [UploadJob.mk 1 5 true, UploadJob.mk 2 3 false] 0 5
     (by decide) (by decide)⟩

/-- C2: a failed job does not change when `drain` resolves, does not change
the other jobs, and `drain` still resolves exactly once every job in the
snapshot — the failed one included — has settled: marking a job failed
leaves every settle time intact and `waitForAll` fixed; every snapshot job
settles by the resolution point, and the resolution point is no later than
any time by which all snapshot jobs have settled. -/
theorem drain_resolves_despite_failure (callTime i : Nat)
    (pending : List UploadJob) (hj : ∃ j ∈ pending, j.id = i) :
    (markFailed i pending).map (fun j => j.settleTime)
        = pending.map (fun j => j.settleTime)
    ∧ waitForAll callTime (markFailed i pending) = waitForAll callTime pending
    ∧ (∀ k ∈ pending, k.settleTime ≤ waitForAll callTime (markFailed i pending))
    ∧ ∀ T, callTime ≤ T → (∀ k ∈ pending, k.settleTime ≤ T) →
        waitForAll callTime (markFailed i pending) ≤ T := by
  refine ⟨markFailed_settleTimes i pending,
          waitForAll_markFailed callTime i pending, ?_, ?_⟩
  · intro k hk
    rw [waitForAll_markFailed]
    unfold waitForAll
    cases pending with
    | nil => cases hk
    | cons a l =>
      rw [if_neg (by simp)]
      exact le_trans (settleTime_le_allSettledTime hk) (le_max_right _ _)
  · intro T hcT hall
    rw [waitForAll_markFailed]
    unfold waitForAll
    by_cases he : pending.isEmpty = true
    · rw [if_pos he]
      exact hcT
    · rw [if_neg he]
      exact max_le hcT (allSettledTime_le hall)

/-- Witness for C2: a three-job snapshot whose job 2 fails; drain resolves
at 7, once the slowest job has settled. -/
theorem drain_resolves_despite_failure_witness :
    (∃ j ∈ [UploadJob.mk 1 4 true, UploadJob.mk 2 7 true, UploadJob.mk 3 2 true],
        j.id = 2)
    ∧ ((markFailed 2 [UploadJob.mk 1 4 true, UploadJob.mk 2 7 true,
          UploadJob.mk 3 2 true]).map (fun j => j.settleTime)
        = [UploadJob.mk 1 4 true, UploadJob.mk 2 7 true,
           UploadJob.mk 3 2 true].map (fun j => j.settleTime)
      ∧ waitForAll 0 (markFailed 2 [UploadJob.mk 1 4 true, UploadJob.mk 2 7 true,
          UploadJob.mk 3 2 true])
        = waitForAll 0 [UploadJob.mk 1 4 true, UploadJob.mk 2 7 true,
            UploadJob.mk 3 2 true]
      ∧ (∀ k ∈ [UploadJob.mk 1 4 true, UploadJob.mk 2 7 true, UploadJob.mk 3 2 true],
          k.settleTime ≤ waitForAll 0 (markFailed 2 [UploadJob.mk 1 4 true,
            UploadJob.mk 2 7 true, UploadJob.mk 3 2 true]))
      ∧ ∀ T, 0 ≤ T →
          (∀ k ∈ [UploadJob.mk 1 4 true, UploadJob.mk 2 7 true, UploadJob.mk 3 2 true],
            k.settleTime ≤ T) →
          waitForAll 0 (markFailed 2 [UploadJob.mk 1 4 true, UploadJob.mk 2 7 true,
            UploadJob.mk 3 2 true]) ≤ T) :=
  ⟨by decide,
   drain_resolves_despite_failure 0 2
     [UploadJob.mk 1 4 true, UploadJob.mk 2 7 true, UploadJob.mk 3 2 true]
     (by decide)⟩

/-- C3 counterexample: when the 2000 ms watchdog fires first and the
pipeline's stop confirmation arrives afterwards, the stop sequence runs
finalize-and-register twice — the timeout path does not set the
`onstopFired` guard, so the late confirmation finalizes again.  The claim's
"no duplicate finalize in either ordering" is false for this ordering. -/
theorem watchdog_then_late_confirm_double_finalize :
    (runStop [StopEvent.watchdogFire, StopEvent.stopConfirm]).uploadsRegistered = 2
    ∧ ¬ (runStop [StopEvent.watchdogFire, StopEvent.stopConfirm]).uploadsRegistered = 1
    ∧ finalizeTimes (some 2500) = [2000, 2500] := by decide

/-- C3 (amended): when the stop confirmation arrives first, the watchdog is
disarmed and exactly one finalize occurs, whatever is delivered afterwards
(duplicate confirmations are suppressed by the `onstopFired` guard and the
cleared watchdog cannot fire); the watchdog alone also finalizes exactly
once.  But when the watchdog fires before the confirmation, the late
confirmation finalizes a second time. -/
theorem confirm_first_single_finalize :
    (∀ rest : List StopEvent,
        (runStop (StopEvent.stopConfirm :: rest)).uploadsRegistered = 1)
    ∧ (runStop [StopEvent.watchdogFire]).uploadsRegistered = 1
    ∧ ∀ rest : List StopEvent,
        (runStop (StopEvent.watchdogFire :: StopEvent.stopConfirm :: rest)).uploadsRegistered
          = 2 := by
  refine ⟨?_, by decide, ?_⟩
  · intro rest
    have h1 : stopStep initialStopState StopEvent.stopConfirm
        = StopState.mk false true 1 := rfl
    show ((StopEvent.stopConfirm :: rest).foldl stopStep initialStopState).uploadsRegistered = 1
    rw [List.foldl_cons, h1, foldl_stopStep_fixed]
  · intro rest
    have h2 : stopStep (stopStep initialStopState StopEvent.watchdogFire)
        StopEvent.stopConfirm = StopState.mk false true 2 := rfl
    show ((StopEvent.watchdogFire :: StopEvent.stopConfirm :: rest).foldl
        stopStep initialStopState).uploadsRegistered = 2
    rw [List.foldl_cons, List.foldl_cons, h2, foldl_stopStep_fixed]

/-- C4: when the capture pipeline never delivers its stop confirmation, the
forced finalize still happens, exactly once, exactly at the 2000 ms
watchdog timeout — not later and not never. -/
theorem forced_finalize_at_watchdog_bound :
    finalizeTimes none = [onstopTimeoutMs]
    ∧ onstopTimeoutMs = 2000
    ∧ (runStop [StopEvent.watchdogFire]).uploadsRegistered = 1 := by decide

/-- C5 counterexample: a finalize with zero accumulated chunks still
registers a job on the upload queue — the `onstop` handler calls
`recordingQueue.addUpload(saveRecordings())` before `saveRecordings`
checks the blob size — so the claim's "no job is enqueued on the Upload
Queue" is false. -/
theorem empty_finalize_still_enqueues_job :
    (onstopHandler false [] FetchOutcome.networkError).jobsEnqueued = 1
    ∧ ¬ (onstopHandler false [] FetchOutcome.networkError).jobsEnqueued = 0 := by
  decide

/-- C5 (amended): a finalize whose assembled payload is zero bytes reports
the distinct empty-capture error and performs no upload; a job is still
registered on the queue, but it settles without uploading (so
`pendingCount()` only changes until that job's immediate settlement is
processed). -/
theorem empty_capture_reported_no_upload (chunkSizes : List Nat)
    (fetch : FetchOutcome) (h : chunkSizes.sum = 0) :
    onstopHandler false chunkSizes fetch =
      { jobsEnqueued := 1,
        save := some { uploaded := false, errorMsg := some emptyCaptureError } }
    ∧ ¬ emptyCaptureError = saveFailedError := by
  constructor
  · unfold onstopHandler saveRecordings saveRecordingsSettled saveRecordingsBody catchAll
    simp [h]
  · decide

/-- Witness for C5 (amended) at zero accumulated chunks. -/
theorem empty_capture_reported_no_upload_witness :
    ([] : List Nat).sum = 0
    ∧ (onstopHandler false [] FetchOutcome.abortError =
        { jobsEnqueued := 1,
          save := some { uploaded := false, errorMsg := some emptyCaptureError } }
      ∧ ¬ emptyCaptureError = saveFailedError) :=
  ⟨rfl, empty_capture_reported_no_upload [] FetchOutcome.abortError rfl⟩

/-- C9: every upload operation registered on the queue settles fulfilled,
never rejected: the outer catch of `saveRecordings` converts every thrown
upload error (non-ok status, bad JSON, abort, network error, anything else)
into the local component error state and returns normally. -/
theorem upload_jobs_always_fulfill (chunkSizes : List Nat)
    (fetch : FetchOutcome) :
    (saveRecordingsSettled chunkSizes fetch).isOk = true
    ∧ ∀ e, saveRecordingsBody chunkSizes fetch = Except.error e →
        saveRecordingsSettled chunkSizes fetch =
          Except.ok { uploaded := false, errorMsg := some saveFailedError } := by
  constructor
  · unfold saveRecordingsSettled catchAll
    cases saveRecordingsBody chunkSizes fetch <;> rfl
  · intro e he
    unfold saveRecordingsSettled catchAll
    rw [he]

/-- Witness for C9 at a failing upload: a network error rejects the body,
yet the registered promise fulfills, with the failure in the error state. -/
theorem upload_jobs_always_fulfill_witness :
    (saveRecordingsSettled [7] FetchOutcome.networkError).isOk = true
    ∧ saveRecordingsSettled [7] FetchOutcome.networkError =
        Except.ok { uploaded := false, errorMsg := some saveFailedError } :=
  ⟨(upload_jobs_always_fulfill [7] FetchOutcome.networkError).1,
   (upload_jobs_always_fulfill [7] FetchOutcome.networkError).2
     "Network error during upload - server may be unavailable" rfl⟩

/-- C6: two successful uploads for the same (participantId, taskNumber)
leave exactly one metadata record at the key the endpoint computes (holding
the second upload's data) and exactly one stored file at the computed screen
path (holding the second blob): the second upload overwrites the first
instead of duplicating it. -/
theorem reupload_overwrites (st : ServerState) (pid tn : String)
    (s1 d1 s2 d2 : Nat)
    (hpid : ¬ pid = "") (htn : ¬ tn = "")
    (hs1 : 0 < s1) (hm1 : ¬ maxUploadBytes < s1)
    (hs2 : 0 < s2) (hm2 : ¬ maxUploadBytes < s2)
    (hrc : kvCount st.recordings (recordingKey pid tn) ≤ 1)
    (hsc : kvCount st.storage (screenPathOf pid tn) ≤ 1) :
    kvCount (uploadRecording (uploadRecording st pid tn 0 s1 d1 false false).1
        pid tn 0 s2 d2 false false).1.recordings (recordingKey pid tn) = 1
    ∧ kvGet (uploadRecording (uploadRecording st pid tn 0 s1 d1 false false).1
        pid tn 0 s2 d2 false false).1.recordings (recordingKey pid tn) =
        some { participantId := pid, taskNumber := tn.toNat?.getD 0,
               audioPath := none, screenPath := some (screenPathOf pid tn),
               duration := d2 }
    ∧ kvCount (uploadRecording (uploadRecording st pid tn 0 s1 d1 false false).1
        pid tn 0 s2 d2 false false).1.storage (screenPathOf pid tn) = 1
    ∧ kvGet (uploadRecording (uploadRecording st pid tn 0 s1 d1 false false).1
        pid tn 0 s2 d2 false false).1.storage (screenPathOf pid tn) = some s2
    ∧ (uploadRecording (uploadRecording st pid tn 0 s1 d1 false false).1
        pid tn 0 s2 d2 false false).2 =
        UploadResponse.success none (some (screenPathOf pid tn)) := by
  rw [uploadRecording_screen_eq st pid tn s1 d1 false hpid htn hs1 hm1,
      uploadRecording_screen_eq _ pid tn s2 d2 false hpid htn hs2 hm2]
  simp only [Bool.false_eq_true, if_false]
  refine ⟨?_, kvGet_kvSet_self _ _ _, ?_, kvGet_kvSet_self _ _ _, trivial⟩
  · rw [kvCount_kvSet_self, kvCount_kvSet_self]
    omega
  · rw [kvCount_kvSet_self, kvCount_kvSet_self]
    omega

/-- Witness for C6: two uploads for participant P1, task 3, sizes 5 then 7,
onto an empty server. -/
theorem reupload_overwrites_witness :
    (¬ "P1" = "" ∧ ¬ "3" = "" ∧ 0 < 5 ∧ ¬ maxUploadBytes < 5 ∧ 0 < 7
      ∧ ¬ maxUploadBytes < 7)
    ∧ kvCount (uploadRecording
        (uploadRecording (ServerState.mk (KVStore.mk []) (KVStore.mk [])
          (KVStore.mk [])) "P1" "3" 0 5 10 false false).1
        "P1" "3" 0 7 20 false false).1.recordings (recordingKey "P1" "3") = 1
    ∧ kvGet (uploadRecording
        (uploadRecording (ServerState.mk (KVStore.mk []) (KVStore.mk [])
          (KVStore.mk [])) "P1" "3" 0 5 10 false false).1
        "P1" "3" 0 7 20 false false).1.recordings (recordingKey "P1" "3") =
        some { participantId := "P1", taskNumber := "3".toNat?.getD 0,
               audioPath := none, screenPath := some (screenPathOf "P1" "3"),
               duration := 20 }
    ∧ kvGet (uploadRecording
        (uploadRecording (ServerState.mk (KVStore.mk []) (KVStore.mk [])
          (KVStore.mk [])) "P1" "3" 0 5 10 false false).1
        "P1" "3" 0 7 20 false false).1.storage (screenPathOf "P1" "3") = some 7 := by
  have h := reupload_overwrites (ServerState.mk (KVStore.mk []) (KVStore.mk [])
    (KVStore.mk [])) "P1" "3" 5 10 7 20 (by decide) (by decide) (by decide)
    (by decide) (by decide) (by decide) (by decide) (by decide)
  exact ⟨⟨by decide, by decide, by decide, by decide, by decide, by decide⟩,
    h.1, h.2.1, h.2.2.2.1⟩

/-- C10: when the storage write of the screen blob fails, the
`upload-recording` endpoint still answers success and still persists the
metadata record carrying the computed screen path, although no file exists
at that path: the storage error is only logged. -/
theorem upload_success_despite_storage_failure (st : ServerState)
    (pid tn : String) (s d : Nat)
    (hpid : ¬ pid = "") (htn : ¬ tn = "") (hs : 0 < s)
    (hm : ¬ maxUploadBytes < s)
    (habsent : kvGet st.storage (screenPathOf pid tn) = none) :
    (uploadRecording st pid tn 0 s d false true).2 =
        UploadResponse.success none (some (screenPathOf pid tn))
    ∧ kvGet (uploadRecording st pid tn 0 s d false true).1.recordings
        (recordingKey pid tn) =
        some { participantId := pid, taskNumber := tn.toNat?.getD 0,
               audioPath := none, screenPath := some (screenPathOf pid tn),
               duration := d }
    ∧ kvGet (uploadRecording st pid tn 0 s d false true).1.storage
        (screenPathOf pid tn) = none := by
  rw [uploadRecording_screen_eq st pid tn s d true hpid htn hs hm]
  simp only [if_true]
  exact ⟨trivial, kvGet_kvSet_self _ _ _, habsent⟩

/-- Witness for C10: a 9-byte screen blob for participant P2, task 5, with
the storage service rejecting the write, onto an empty server. -/
theorem upload_success_despite_storage_failure_witness :
    (¬ "P2" = "" ∧ ¬ "5" = "" ∧ 0 < 9 ∧ ¬ maxUploadBytes < 9
      ∧ kvGet (ServerState.mk (KVStore.mk []) (KVStore.mk [])
          (KVStore.mk [])).storage (screenPathOf "P2" "5") = none)
    ∧ (uploadRecording (ServerState.mk (KVStore.mk []) (KVStore.mk [])
          (KVStore.mk [])) "P2" "5" 0 9 4 false true).2 =
        UploadResponse.success none (some (screenPathOf "P2" "5"))
    ∧ kvGet (uploadRecording (ServerState.mk (KVStore.mk []) (KVStore.mk [])
          (KVStore.mk [])) "P2" "5" 0 9 4 false true).1.storage
        (screenPathOf "P2" "5") = none := by
  have h := upload_success_despite_storage_failure
    (ServerState.mk (KVStore.mk []) (KVStore.mk []) (KVStore.mk []))
    "P2" "5" 9 4 (by decide) (by decide) (by decide) (by decide) (by decide)
  exact ⟨⟨by decide, by decide, by decide, by decide, by decide⟩, h.1, h.2.2⟩

/-- C7 counterexample: participant USR-A is already marked submitted, yet a
subsequent call to the submit endpoint for it answers success — the
endpoint performs no prior-submission rejection. -/
theorem resubmit_not_rejected :
    (kvGet (ServerState.mk
        (KVStore.mk [("participant:USR-A",
          Participant.mk "USR-A" "1.2.3.4" true false)])
        (KVStore.mk []) (KVStore.mk [])).participants
        "participant:USR-A").map (fun p => p.submitted) = some true
    ∧ (submitResponse (ServerState.mk
        (KVStore.mk [("participant:USR-A",
          Participant.mk "USR-A" "1.2.3.4" true false)])
        (KVStore.mk []) (KVStore.mk [])) "USR-A" "9.9.9.9").2 =
        SubmitResponse.success := by decide

/-- C7 (amended): the prior-submission rejection is enforced by the
`check-participant` endpoint — an IP that already has a submitted
participant is blocked from starting a new session — while the
`submit-response` endpoint accepts a repeated submission for an
already-submitted participant and overwrites its record. -/
theorem resubmission_accepted_gate_at_check (st : ServerState)
    (pid ip newPid : String) (p : Participant)
    (hpid : ¬ pid = "")
    (hp : kvGet st.participants ("participant:" ++ pid) = some p)
    (hsub : p.submitted = true) (hip : p.ipAddress = ip) :
    (submitResponse st pid ip).2 = SubmitResponse.success
    ∧ kvGet (submitResponse st pid ip).1.participants ("participant:" ++ pid) =
        some ({ p with submitted := true })
    ∧ (checkParticipant st ip newPid).2 = CheckResponse.blocked := by
  have hsr : submitResponse st pid ip =
      (ServerState.mk
        (kvSet st.participants ("participant:" ++ pid) ({ p with submitted := true }))
        st.recordings st.storage,
       SubmitResponse.success) := by
    simp only [submitResponse, if_neg hpid, hp]
  have hmem : p ∈ kvByKeyStart st.participants "participant:" :=
    kvGet_mem_kvByKeyStart st.participants "participant:" pid p hp
  have hany : (kvByKeyStart st.participants "participant:").any
      (fun q => q.ipAddress = ip ∧ q.submitted) = true := by
    refine List.any_eq_true.mpr ⟨p, hmem, ?_⟩
    simp [hip, hsub]
  refine ⟨by rw [hsr], ?_, ?_⟩
  · rw [hsr]
    exact kvGet_kvSet_self _ _ _
  · simp only [checkParticipant, hany, if_true]

/-- Witness for C7 (amended): participant USR-B from IP 2.2.2.2 has already
submitted; its repeated submission succeeds and a new session from that IP
is blocked. -/
theorem resubmission_accepted_gate_at_check_witness :
    (¬ "USR-B" = ""
      ∧ kvGet (ServerState.mk
          (KVStore.mk [("participant:USR-B",
            Participant.mk "USR-B" "2.2.2.2" true false)])
          (KVStore.mk []) (KVStore.mk [])).participants
          ("participant:" ++ "USR-B") =
          some (Participant.mk "USR-B" "2.2.2.2" true false))
    ∧ (submitResponse (ServerState.mk
        (KVStore.mk [("participant:USR-B",
          Participant.mk "USR-B" "2.2.2.2" true false)])
        (KVStore.mk []) (KVStore.mk [])) "USR-B" "2.2.2.2").2 =
        SubmitResponse.success
    ∧ (checkParticipant (ServerState.mk
        (KVStore.mk [("participant:USR-B",
          Participant.mk "USR-B" "2.2.2.2" true false)])
        (KVStore.mk []) (KVStore.mk [])) "2.2.2.2" "USR-C").2 =
        CheckResponse.blocked := by
  have h := resubmission_accepted_gate_at_check (ServerState.mk
    (KVStore.mk [("participant:USR-B",
      Participant.mk "USR-B" "2.2.2.2" true false)])
    (KVStore.mk []) (KVStore.mk [])) "USR-B" "2.2.2.2" "USR-C"
    (Participant.mk "USR-B" "2.2.2.2" true false)
    (by decide) (by decide) (by decide) (by decide)
  exact ⟨⟨by decide, by decide⟩, h.1, h.2.2⟩

/-- C8 (code bug): the task flow has tasks 1..10, but the participant-exit
endpoint deletes recording records only for tasks 1..6; after
`deleteParticipant`, a recording for task 7 keeps its metadata record (its
key is not among the deleted keys) even though its stored file and the
participant record are removed. -/
theorem delete_participant_leaves_task7_record :
    7 ∈ taskFlowTaskNumbers
    ∧ ¬ ("recording:USR-X:task7" ∈ deleteRecordingKeys "USR-X")
    ∧ kvGet (deleteParticipant (ServerState.mk
        (KVStore.mk [("participant:USR-X",
          Participant.mk "USR-X" "5.6.7.8" false false)])
        (KVStore.mk [("recording:USR-X:task7",
          RecMeta.mk "USR-X" 7 none (some "USR-X/task7_screen.webm") 30)])
        (KVStore.mk [("USR-X/task7_screen.webm", 99)])) "USR-X").recordings
        "recording:USR-X:task7" =
        some (RecMeta.mk "USR-X" 7 none (some "USR-X/task7_screen.webm") 30)
    ∧ kvGet (deleteParticipant (ServerState.mk
        (KVStore.mk [("participant:USR-X",
          Participant.mk "USR-X" "5.6.7.8" false false)])
        (KVStore.mk [("recording:USR-X:task7",
          RecMeta.mk "USR-X" 7 none (some "USR-X/task7_screen.webm") 30)])
        (KVStore.mk [("USR-X/task7_screen.webm", 99)])) "USR-X").storage
        "USR-X/task7_screen.webm" = none
    ∧ kvGet (deleteParticipant (ServerState.mk
        (KVStore.mk [("participant:USR-X",
          Participant.mk "USR-X" "5.6.7.8" false false)])
        (KVStore.mk [("recording:USR-X:task7",
          RecMeta.mk "USR-X" 7 none (some "USR-X/task7_screen.webm") 30)])
        (KVStore.mk [("USR-X/task7_screen.webm", 99)])) "USR-X").participants
        "participant:USR-X" = none := by decide

end UserTesting
